import Mathlib

/-!
Shallow embedding of `src/dist/index.js` (oca-api): a client library with five
operations that fetch an XML document over HTTP, parse it (xml2js), extract
rows (lodash `get` at a fixed path), and map each row to a flat record.

Modelling conventions:
* A parsed XML document (the `json` value produced by xml2js) is a `JsVal`
  tree: strings, arrays, objects (association lists), plus the JavaScript
  `undefined` value.
* JavaScript errors are `JsError` (name, message); `JsError.toString` follows
  `Error.prototype.toString`.
* Fallible JS evaluation is `Except JsError`.  Property access on `undefined`
  and calling `.trim`/`.map` on non-receivers throw `TypeError`, as in JS.
* `fetch` and `xml2js.parseString` are external: an operation receives the
  settled HTTP `Response` (`ok` flag and body text) and a `parse` function
  `String → Except JsError JsVal` standing for xml2js on the body text.
-/

namespace OCA

/-- A JavaScript value as produced by xml2js: `undefined`, a string, an
array, or an object (ordered association list of fields). -/
inductive JsVal where
  | undefined : JsVal
  | str : String → JsVal
  | arr : List JsVal → JsVal
  | obj : List (String × JsVal) → JsVal

/-- A JavaScript `Error`-like object: its `name` and `message` fields. -/
structure JsError where
  name : String
  message : String

/-- JS `Error.prototype.toString()`: empty name gives the message, empty
message gives the name, otherwise `name + ": " + message`. -/
def JsError.toString (e : JsError) : String :=
  if e.name = "" then e.message
  else if e.message = "" then e.name
  else e.name ++ ": " ++ e.message

/-- The `TypeError` thrown when reading a property of `undefined`. -/
def typeError (k : String) : JsError :=
  ⟨"TypeError", "Cannot read properties of undefined (reading " ++ k ++ ")"⟩

/-- JS property access `v.k` (also used for destructuring): throws a
`TypeError` on `undefined`, looks the key up on objects, and yields
`undefined` on other receivers and missing keys. -/
def jsProp (v : JsVal) (k : String) : Except JsError JsVal :=
  match v with
  | .undefined => .error (typeError k)
  | .obj fs => .ok ((fs.lookup k).getD .undefined)
  | _ => .ok .undefined

/-- JS indexing `v[0]`: throws a `TypeError` on `undefined`; on arrays the
first element (`undefined` when empty); on objects the `"0"` key; on strings
the first character. -/
def jsIndex0 (v : JsVal) : Except JsError JsVal :=
  match v with
  | .undefined => .error (typeError "0")
  | .arr xs => .ok ((xs.get? 0).getD .undefined)
  | .obj fs => .ok ((fs.lookup "0").getD .undefined)
  | .str s =>
    .ok (match s.data with
      | [] => .undefined
      | c :: _ => .str (String.mk [c]))

/-- The JS expression `elem.K[0]`. -/
def jsField0 (elem : JsVal) (k : String) : Except JsError JsVal := do
  jsIndex0 (← jsProp elem k)

/-- JS `String.prototype.trim` on the character sequence: drop leading and
trailing whitespace, keep everything between. -/
def jsStrTrim (s : String) : String :=
  String.mk (((s.data.dropWhile Char.isWhitespace).reverse.dropWhile
    Char.isWhitespace).reverse)

/-- JS `v.trim()`: trims strings, throws a `TypeError` on `undefined` and on
receivers that have no `trim` method. -/
def jsTrim (v : JsVal) : Except JsError JsVal :=
  match v with
  | .undefined => .error (typeError "trim")
  | .str s => .ok (.str (jsStrTrim s))
  | _ => .error ⟨"TypeError", "trim is not a function"⟩

/-- JS `list.map(f)` with a callback that can throw: requires an array
receiver (otherwise `TypeError`), applies `f` left to right and propagates
the first thrown error. -/
def jsArrayMap {α : Type} (f : JsVal → Except JsError α) :
    List JsVal → Except JsError (List α)
  | [] => .ok []
  | x :: xs => do
    let a ← f x
    let as ← jsArrayMap f xs
    return a :: as

/-- JS `v.map(f)` on an arbitrary receiver: arrays map, anything else lacks
the `map` method and throws. -/
def jsMapM {α : Type} (v : JsVal) (f : JsVal → Except JsError α) :
    Except JsError (List α) :=
  match v with
  | .arr xs => jsArrayMap f xs
  | .undefined => .error (typeError "map")
  | _ => .error ⟨"TypeError", "map is not a function"⟩

/-- A named (non-numeric) lodash `get` path step `v[k]`: key lookup on
objects; on arrays and strings a non-numeric key resolves to nothing;
nothing on `undefined`. -/
def jsAccess (v : JsVal) (k : String) : Option JsVal :=
  match v with
  | .obj fs => fs.lookup k
  | _ => none

/-- The numeric lodash `get` path step `v[0]`: first element of an array,
the `"0"` key of an object, first character of a string. -/
def jsAccessZero (v : JsVal) : Option JsVal :=
  match v with
  | .obj fs => fs.lookup "0"
  | .arr xs => xs.get? 0
  | .str s => (s.data.get? 0).map fun c => .str (String.mk [c])
  | .undefined => none

/-- Resolution of the fixed lodash path
`DataSet.diffgr:diffgram[0].NewDataSet[0].Table` against the parsed
document; `none` when a step misses. -/
def resolveDataPath (json : JsVal) : Option JsVal :=
  ((((jsAccess json "DataSet").bind
      (fun v => jsAccess v "diffgr:diffgram")).bind
      jsAccessZero).bind
      (fun v => jsAccess v "NewDataSet")).bind
      jsAccessZero |>.bind
      (fun v => jsAccess v "Table")

/-- Source `getDataFromResponse`: lodash
`get(json, 'DataSet.diffgr:diffgram[0].NewDataSet[0].Table', [])` — the
value at the path, or the default `[]` when the resolution is `undefined`. -/
def getDataFromResponse (json : JsVal) : JsVal :=
  match resolveDataPath json with
  | none => .arr []
  | some .undefined => .arr []
  | some v => v

/-- The settled HTTP response handed to `parseResponse`: its `ok` flag and
the body text that `result.text()` yields. -/
structure Response where
  ok : Bool
  body : String

/-- Source `parseResponse`: on a failure status, throw `new Error(bodyText)`;
otherwise parse the body text as XML (`parse` stands for xml2js, rejecting
with the parser's error on non-well-formed input). -/
def parseResponse (parse : String → Except JsError JsVal) (result : Response) :
    Except JsError JsVal :=
  if !result.ok then .error ⟨"Error", result.body⟩
  else parse result.body

/-- The trailing `.catch(err => { throw new Error(err); })` of every
operation: any error is replaced by a fresh generic `Error` whose message is
the string conversion of the caught value. -/
def wrapCatch {α : Type} (x : Except JsError α) : Except JsError α :=
  match x with
  | .error e => .error ⟨"Error", e.toString⟩
  | .ok a => .ok a

/-- Source `baseURL` for four of the five operations. -/
def baseURL : String := "http://webservice.oca.com.ar/epak_tracking/Oep_TrackEPak.asmx"

/-- Record returned by `listEnvios` for each row. -/
structure EnvioRecord where
  nroProducto : JsVal
  numeroEnvio : JsVal

/-- Record returned by `tarifarEnvioCorporativo` for each row. -/
structure TarifaRecord where
  tarifador : JsVal
  precio : JsVal
  idTiposervicio : JsVal
  ambito : JsVal
  plazoEntrega : JsVal
  adicional : JsVal
  total : JsVal

/-- Record returned by `getProvincias` for each row. -/
structure ProvinciaRecord where
  idProvincia : JsVal
  descripcion : JsVal

/-- Record returned by `trackingPieza` for each row; the misspelled
`desdcripcion_Estado` is verbatim from the source. -/
structure TrackingRecord where
  numeroEnvio : JsVal
  descripcion_Motivo : JsVal
  desdcripcion_Estado : JsVal
  suc : JsVal
  fecha : JsVal

/-- Query string of `listEnvios`:
`cuit=${cuit}&fechaDesde=${fechaDesde}&fechaHasta=${fechaHasta}`. -/
def listEnviosParams (cuit fechaDesde fechaHasta : String) : String :=
  "cuit=" ++ cuit ++ "&fechaDesde=" ++ fechaDesde ++ "&fechaHasta=" ++ fechaHasta

/-- Full request URL of `listEnvios`. -/
def listEnviosURL (cuit fechaDesde fechaHasta : String) : String :=
  baseURL ++ "/List_Envios" ++ "?" ++ listEnviosParams cuit fechaDesde fechaHasta

/-- Row mapping of `listEnvios`:
`{ nroProducto: elem.NroProducto[0], numeroEnvio: elem.NumeroEnvio[0] }`. -/
def mapEnvioRow (elem : JsVal) : Except JsError EnvioRecord := do
  let nroProducto ← jsField0 elem "NroProducto"
  let numeroEnvio ← jsField0 elem "NumeroEnvio"
  return ⟨nroProducto, numeroEnvio⟩

/-- Promise chain of `listEnvios` after `fetch` settles, before the final
`.catch`: parse the response, extract the rows, map each row. -/
def listEnviosBody (parse : String → Except JsError JsVal) (r : Response) :
    Except JsError (List EnvioRecord) := do
  let json ← parseResponse parse r
  jsMapM (getDataFromResponse json) mapEnvioRow

/-- Source `listEnvios` as observed by the caller (result of the settled
`fetch`, plus the xml2js behaviour, are the inputs). -/
def listEnvios (parse : String → Except JsError JsVal) (r : Response) :
    Except JsError (List EnvioRecord) :=
  wrapCatch (listEnviosBody parse r)

/-- Query string of `tarifarEnvioCorporativo` (eight parameters, in source
order). -/
def tarifarParams (operativa cuit pesoTotal volumenTotal codigoPostalOrigen
    codigoPostalDestino cantidadPaquetes valorDeclarado : String) : String :=
  "cuit=" ++ cuit ++ "&operativa=" ++ operativa ++ "&pesoTotal=" ++ pesoTotal ++
    "&volumenTotal=" ++ volumenTotal ++ "&codigoPostalOrigen=" ++ codigoPostalOrigen ++
    "&codigoPostalDestino=" ++ codigoPostalDestino ++ "&cantidadPaquetes=" ++
    cantidadPaquetes ++ "&valorDeclarado=" ++ valorDeclarado

/-- Row mapping of `tarifarEnvioCorporativo`: destructure the seven source
fields and take the first value of each. -/
def mapTarifaRow (elem : JsVal) : Except JsError TarifaRecord := do
  let tarifador ← jsField0 elem "Tarifador"
  let precio ← jsField0 elem "Precio"
  let idTiposervicio ← jsField0 elem "idTiposervicio"
  let ambito ← jsField0 elem "Ambito"
  let plazoEntrega ← jsField0 elem "PlazoEntrega"
  let adicional ← jsField0 elem "Adicional"
  let total ← jsField0 elem "Total"
  return ⟨tarifador, precio, idTiposervicio, ambito, plazoEntrega, adicional, total⟩

/-- Promise chain of `tarifarEnvioCorporativo` before the final `.catch`. -/
def tarifarEnvioCorporativoBody (parse : String → Except JsError JsVal)
    (r : Response) : Except JsError (List TarifaRecord) := do
  let json ← parseResponse parse r
  jsMapM (getDataFromResponse json) mapTarifaRow

/-- Source `tarifarEnvioCorporativo` as observed by the caller. -/
def tarifarEnvioCorporativo (parse : String → Except JsError JsVal)
    (r : Response) : Except JsError (List TarifaRecord) :=
  wrapCatch (tarifarEnvioCorporativoBody parse r)

/-- Row mapping of `getProvincias`:
`{ idProvincia: IdProvincia[0], descripcion: Descripcion[0].trim() }`. -/
def mapProvinciaRow (elem : JsVal) : Except JsError ProvinciaRecord := do
  let idProvincia ← jsField0 elem "IdProvincia"
  let descripcion ← jsTrim (← jsField0 elem "Descripcion")
  return ⟨idProvincia, descripcion⟩

/-- Promise chain of `getProvincias` before the final `.catch`. -/
def getProvinciasBody (parse : String → Except JsError JsVal) (r : Response) :
    Except JsError (List ProvinciaRecord) := do
  let json ← parseResponse parse r
  jsMapM (getDataFromResponse json) mapProvinciaRow

/-- Source `getProvincias` as observed by the caller. -/
def getProvincias (parse : String → Except JsError JsVal) (r : Response) :
    Except JsError (List ProvinciaRecord) :=
  wrapCatch (getProvinciasBody parse r)

/-- Promise chain of `getLocalidadesByProvincia` before the final `.catch`:
`json.Localidades.Provincia.map(place => place.Nombre[0])` — no
`getDataFromResponse`, plain strings out. -/
def getLocalidadesByProvinciaBody (parse : String → Except JsError JsVal)
    (r : Response) : Except JsError (List JsVal) := do
  let json ← parseResponse parse r
  let localidades ← jsProp json "Localidades"
  let provincia ← jsProp localidades "Provincia"
  jsMapM provincia fun place => jsField0 place "Nombre"

/-- Source `getLocalidadesByProvincia` as observed by the caller. -/
def getLocalidadesByProvincia (parse : String → Except JsError JsVal)
    (r : Response) : Except JsError (List JsVal) :=
  wrapCatch (getLocalidadesByProvinciaBody parse r)

/-- Query string of `trackingPieza`:
`pieza=${pieza}&nroDocumentoCliente=${nroDocumentoCliente}&cuit=${cuit}`,
with the omitted optionals defaulting to the literal `'0'`. -/
def trackingPiezaParams (pieza : String)
    (nroDocumentoCliente cuit : Option String) : String :=
  "pieza=" ++ pieza ++ "&nroDocumentoCliente=" ++ nroDocumentoCliente.getD "0" ++
    "&cuit=" ++ cuit.getD "0"

/-- Full request URL of `trackingPieza`. -/
def trackingPiezaURL (pieza : String)
    (nroDocumentoCliente cuit : Option String) : String :=
  baseURL ++ "/Tracking_Pieza" ++ "?" ++ trackingPiezaParams pieza nroDocumentoCliente cuit

/-- Row mapping of `trackingPieza` (note the verbatim misspelling
`Desdcripcion_Estado`). -/
def mapTrackingRow (elem : JsVal) : Except JsError TrackingRecord := do
  let numeroEnvio ← jsField0 elem "NumeroEnvio"
  let descripcion_Motivo ← jsField0 elem "Descripcion_Motivo"
  let desdcripcion_Estado ← jsField0 elem "Desdcripcion_Estado"
  let suc ← jsField0 elem "SUC"
  let fecha ← jsField0 elem "fecha"
  return ⟨numeroEnvio, descripcion_Motivo, desdcripcion_Estado, suc, fecha⟩

/-- Promise chain of `trackingPieza` before the final `.catch`. -/
def trackingPiezaBody (parse : String → Except JsError JsVal) (r : Response) :
    Except JsError (List TrackingRecord) := do
  let json ← parseResponse parse r
  jsMapM (getDataFromResponse json) mapTrackingRow

/-- Source `trackingPieza` as observed by the caller. -/
def trackingPieza (parse : String → Except JsError JsVal) (r : Response) :
    Except JsError (List TrackingRecord) :=
  wrapCatch (trackingPiezaBody parse r)

/-- Synthetic upstream fixture: an xml2js stand-in that always yields the
given parsed document. -/
def parseConst (v : JsVal) : String → Except JsError JsVal := fun _ => .ok v

/-- Synthetic upstream fixture: an xml2js stand-in that always rejects with
the given parser error (a non-well-formed body). -/
def parseFail (e : JsError) : String → Except JsError JsVal := fun _ => .error e

/-- Synthetic document builder: wraps rows in the
`DataSet.diffgr:diffgram[0].NewDataSet[0].Table` envelope the remote
service uses. -/
def diffgramDoc (rows : List JsVal) : JsVal :=
  .obj [("DataSet", .obj [("diffgr:diffgram", .arr [.obj [("NewDataSet",
    .arr [.obj [("Table", .arr rows)]])]])])]

/-- Synthetic document with a `Localidades.Provincia` array of rows, the
shape consumed by `getLocalidadesByProvincia`. -/
def localidadesDoc (rows : List JsVal) : JsVal :=
  .obj [("Localidades", .obj [("Provincia", .arr rows)])]

/-- Unfolding lemma: binding a failed `Except` propagates the failure. -/
theorem error_bind {α β : Type} (e : JsError) (f : α → Except JsError β) :
    ((Except.error e : Except JsError α) >>= f) = Except.error e := rfl

/-- Unfolding lemma: binding a successful `Except` applies the continuation. -/
theorem ok_bind {α β : Type} (a : α) (f : α → Except JsError β) :
    ((Except.ok a : Except JsError α) >>= f) = f a := rfl

/-- Unfolding lemma: `pure` into `Except` is `Except.ok`. -/
theorem pure_eq_ok {α : Type} (a : α) :
    (pure a : Except JsError α) = Except.ok a := rfl

/-- The `wrapCatch` boundary is transparent for successes. -/
theorem wrapCatch_ok_iff {α : Type} (x : Except JsError α) (a : α) :
    wrapCatch x = .ok a ↔ x = .ok a := by
  cases x <;> simp [wrapCatch]

/-- A successful `jsArrayMap` yields one output per input. -/
theorem jsArrayMap_length {α : Type} (f : JsVal → Except JsError α)
    (xs : List JsVal) (ys : List α) (h : jsArrayMap f xs = .ok ys) :
    ys.length = xs.length := by
  induction xs generalizing ys with
  | nil =>
    simp only [jsArrayMap] at h
    cases h
    rfl
  | cons x xs ih =>
    simp only [jsArrayMap] at h
    cases hf : f x with
    | error e => rw [hf, error_bind] at h; cases h
    | ok a =>
      rw [hf, ok_bind] at h
      cases hm : jsArrayMap f xs with
      | error e => rw [hm, error_bind] at h; cases h
      | ok as =>
        rw [hm, ok_bind, pure_eq_ok] at h
        cases h
        simp [ih as hm]

/-- A successful `jsArrayMap` maps each input position to the successful
application of the callback at that position. -/
theorem jsArrayMap_get {α : Type} (f : JsVal → Except JsError α)
    (xs : List JsVal) (ys : List α) (i : Nat) (x : JsVal)
    (h : jsArrayMap f xs = .ok ys) (hx : xs.get? i = some x) :
    ∃ y, f x = .ok y ∧ ys.get? i = some y := by
  induction xs generalizing ys i with
  | nil => simp at hx
  | cons z zs ih =>
    simp only [jsArrayMap] at h
    cases hf : f z with
    | error e => rw [hf, error_bind] at h; cases h
    | ok a =>
      rw [hf, ok_bind] at h
      cases hm : jsArrayMap f zs with
      | error e => rw [hm, error_bind] at h; cases h
      | ok as =>
        rw [hm, ok_bind, pure_eq_ok] at h
        cases h
        cases i with
        | zero =>
          rw [List.get?_cons_zero] at hx
          cases hx
          exact ⟨a, hf, rfl⟩
        | succ n =>
          rw [List.get?_cons_succ] at hx
          obtain ⟨y, hy1, hy2⟩ := ih as n hm hx
          exact ⟨y, hy1, hy2⟩

/-- C4: the Field Extractor (`getDataFromResponse`), applied to any parsed
document in which the fixed path `DataSet.diffgr:diffgram[0].NewDataSet[0].Table`
fails to resolve (a segment is missing), returns the empty row sequence —
the lodash default — rather than failing. -/
theorem c4_missing_path_empty (json : JsVal)
    (h : resolveDataPath json = none ∨ resolveDataPath json = some .undefined) :
    getDataFromResponse json = .arr [] := by
  unfold getDataFromResponse
  rcases h with h | h <;> rw [h]

/-- Witness for C4 at the concrete document `{}` (no `DataSet` key). -/
theorem c4_missing_path_empty_witness :
    (resolveDataPath (JsVal.obj []) = none ∨
      resolveDataPath (JsVal.obj []) = some .undefined) ∧
    getDataFromResponse (JsVal.obj []) = .arr [] :=
  ⟨Or.inl rfl, c4_missing_path_empty (JsVal.obj []) (Or.inl rfl)⟩

/-- C6: when the caller of `trackingPieza` omits `nroDocumentoCliente` and
`cuit`, the query string carries the literal `0` for each of the two
parameters, with `pieza` interpolated verbatim; the request URL is the
base URL, the endpoint and that query string. -/
theorem c6_tracking_defaults (pieza : String) :
    trackingPiezaParams pieza none none =
      "pieza=" ++ pieza ++ "&nroDocumentoCliente=0&cuit=0" ∧
    trackingPiezaURL pieza none none =
      baseURL ++ "/Tracking_Pieza" ++ "?" ++
        ("pieza=" ++ pieza ++ "&nroDocumentoCliente=0&cuit=0") := by
  constructor
  · simp [trackingPiezaParams, String.append_assoc]
  · simp [trackingPiezaURL, trackingPiezaParams, String.append_assoc]

/-- C3: for a synthetic upstream document holding a
`DataSet.diffgr:diffgram[0].NewDataSet[0].Table` array of two rows, each
carrying `NroProducto` and `NumeroEnvio` value arrays (possibly with
further values and further fields), `listEnvios` resolves to exactly two
records with `nroProducto` and `numeroEnvio` taken from the first value of
each source field, in document order. -/
theorem c3_listEnvios_round_trip (a b c d : String) (t1 t2 t3 t4 : List JsVal)
    (e1 e2 : List (String × JsVal)) (body : String) :
    listEnvios (parseConst (diffgramDoc [
      .obj (("NroProducto", .arr (.str a :: t1)) ::
        ("NumeroEnvio", .arr (.str b :: t2)) :: e1),
      .obj (("NroProducto", .arr (.str c :: t3)) ::
        ("NumeroEnvio", .arr (.str d :: t4)) :: e2)]))
      ⟨true, body⟩ =
    .ok [⟨.str a, .str b⟩, ⟨.str c, .str d⟩] := by
  rfl

/-- C1 fails as stated: on a failure-status response the delivered message
is not the body text itself.  At body `Internal Server Error` the caller
observes message `Error: Internal Server Error`, the re-wrapped form. -/
theorem c1_counterexample :
    listEnvios (parseConst (JsVal.obj [])) ⟨false, "Internal Server Error"⟩ =
      .error ⟨"Error", "Error: Internal Server Error"⟩ ∧
    "Error: Internal Server Error" ≠ "Internal Server Error" :=
  ⟨rfl, by decide⟩

/-- C1 amended: a failure-status response with a nonempty body makes every
one of the five operations reject with an error whose message is the body
text prefixed with `Error: ` (the string conversion of the `Error` built
from the body, produced by the final re-wrapping catch). -/
theorem c1_upstream_error_message (parse : String → Except JsError JsVal)
    (body : String) (h : body ≠ "") :
    listEnvios parse ⟨false, body⟩ = .error ⟨"Error", "Error: " ++ body⟩ ∧
    tarifarEnvioCorporativo parse ⟨false, body⟩ =
      .error ⟨"Error", "Error: " ++ body⟩ ∧
    getProvincias parse ⟨false, body⟩ = .error ⟨"Error", "Error: " ++ body⟩ ∧
    getLocalidadesByProvincia parse ⟨false, body⟩ =
      .error ⟨"Error", "Error: " ++ body⟩ ∧
    trackingPieza parse ⟨false, body⟩ = .error ⟨"Error", "Error: " ++ body⟩ := by
  have hmsg : JsError.toString ⟨"Error", body⟩ = "Error: " ++ body := by
    show (if ("Error" : String) = "" then body
      else if body = "" then "Error" else "Error" ++ ": " ++ body) = "Error: " ++ body
    rw [if_neg (by decide : ¬(("Error" : String) = "")), if_neg h]
    rfl
  refine ⟨?_, ?_, ?_, ?_, ?_⟩
  · rw [show listEnvios parse ⟨false, body⟩ =
      .error ⟨"Error", JsError.toString ⟨"Error", body⟩⟩ from rfl, hmsg]
  · rw [show tarifarEnvioCorporativo parse ⟨false, body⟩ =
      .error ⟨"Error", JsError.toString ⟨"Error", body⟩⟩ from rfl, hmsg]
  · rw [show getProvincias parse ⟨false, body⟩ =
      .error ⟨"Error", JsError.toString ⟨"Error", body⟩⟩ from rfl, hmsg]
  · rw [show getLocalidadesByProvincia parse ⟨false, body⟩ =
      .error ⟨"Error", JsError.toString ⟨"Error", body⟩⟩ from rfl, hmsg]
  · rw [show trackingPieza parse ⟨false, body⟩ =
      .error ⟨"Error", JsError.toString ⟨"Error", body⟩⟩ from rfl, hmsg]

/-- Witness for the amended C1 at body `Internal Server Error`. -/
theorem c1_upstream_error_message_witness :
    ("Internal Server Error" : String) ≠ "" ∧
    listEnvios (parseConst (JsVal.obj [])) ⟨false, "Internal Server Error"⟩ =
      .error ⟨"Error", "Error: " ++ "Internal Server Error"⟩ :=
  ⟨by decide,
    (c1_upstream_error_message (parseConst (JsVal.obj []))
      "Internal Server Error" (by decide)).1⟩

/-- C2: a successful upstream response whose parsed document carries zero
row elements resolves to the empty array for each of the five operations:
for the four diffgram operations when the Field Extractor yields no rows,
and for `getLocalidadesByProvincia` when `Localidades.Provincia` is the
empty array. -/
theorem c2_zero_rows (parse : String → Except JsError JsVal) (r : Response)
    (json : JsVal) (hok : r.ok = true) (hp : parse r.body = .ok json) :
    (getDataFromResponse json = .arr [] →
      listEnvios parse r = .ok [] ∧
      tarifarEnvioCorporativo parse r = .ok [] ∧
      getProvincias parse r = .ok [] ∧
      trackingPieza parse r = .ok []) ∧
    (∀ l, jsAccess json "Localidades" = some l →
      jsAccess l "Provincia" = some (.arr []) →
      getLocalidadesByProvincia parse r = .ok []) := by
  have hpr : parseResponse parse r = .ok json := by
    simp [parseResponse, hok, hp]
  constructor
  · intro hrows
    refine ⟨?_, ?_, ?_, ?_⟩
    · simp only [listEnvios, listEnviosBody, hpr, ok_bind, hrows]
      rfl
    · simp only [tarifarEnvioCorporativo, tarifarEnvioCorporativoBody, hpr, ok_bind, hrows]
      rfl
    · simp only [getProvincias, getProvinciasBody, hpr, ok_bind, hrows]
      rfl
    · simp only [trackingPieza, trackingPiezaBody, hpr, ok_bind, hrows]
      rfl
  · intro l hl hlp
    have hj1 : jsProp json "Localidades" = .ok l := by
      cases json with
      | obj fs =>
        simp only [jsAccess] at hl
        simp [jsProp, hl]
      | undefined => simp [jsAccess] at hl
      | str s => simp [jsAccess] at hl
      | arr xs => simp [jsAccess] at hl
    have hj2 : jsProp l "Provincia" = .ok (.arr []) := by
      cases l with
      | obj fs =>
        simp only [jsAccess] at hlp
        simp [jsProp, hlp]
      | undefined => simp [jsAccess] at hlp
      | str s => simp [jsAccess] at hlp
      | arr xs => simp [jsAccess] at hlp
    simp only [getLocalidadesByProvincia, getLocalidadesByProvinciaBody, hpr,
      ok_bind, hj1, hj2]
    rfl

/-- Witness for C2 at a concrete empty-rows document (no `DataSet` key, and
an empty `Localidades.Provincia` array). -/
theorem c2_zero_rows_witness :
    listEnvios (parseConst (localidadesDoc [])) ⟨true, ""⟩ = .ok [] ∧
    tarifarEnvioCorporativo (parseConst (localidadesDoc [])) ⟨true, ""⟩ = .ok [] ∧
    getProvincias (parseConst (localidadesDoc [])) ⟨true, ""⟩ = .ok [] ∧
    trackingPieza (parseConst (localidadesDoc [])) ⟨true, ""⟩ = .ok [] ∧
    getLocalidadesByProvincia (parseConst (localidadesDoc [])) ⟨true, ""⟩ = .ok [] := by
  obtain ⟨h1, h2⟩ := c2_zero_rows (parseConst (localidadesDoc [])) ⟨true, ""⟩
    (localidadesDoc []) rfl rfl
  obtain ⟨a, b, c, d⟩ := h1 rfl
  exact ⟨a, b, c, d, h2 (JsVal.obj [("Provincia", JsVal.arr [])]) rfl rfl⟩

/-- C5: for `getProvincias`, every returned record whose source row holds
`IdProvincia` and `Descripcion` value arrays gets `descripcion` equal to the
first `Descripcion` value with surrounding whitespace trimmed, while
`idProvincia` is the first `IdProvincia` value untransformed. -/
theorem c5_provincias_trim (parse : String → Except JsError JsVal)
    (r : Response) (json : JsVal) (rows : List JsVal)
    (recs : List ProvinciaRecord) (i : Nat) (idv : JsVal) (idT : List JsVal)
    (desc : String) (dT : List JsVal) (extra : List (String × JsVal))
    (hok : r.ok = true) (hp : parse r.body = .ok json)
    (hrows : getDataFromResponse json = .arr rows)
    (hres : getProvincias parse r = .ok recs)
    (hrow : rows.get? i = some (.obj (("IdProvincia", .arr (idv :: idT)) ::
      ("Descripcion", .arr (.str desc :: dT)) :: extra))) :
    recs.get? i = some ⟨idv, .str (jsStrTrim desc)⟩ := by
  have hpr : parseResponse parse r = .ok json := by
    simp [parseResponse, hok, hp]
  rw [getProvincias, wrapCatch_ok_iff] at hres
  rw [getProvinciasBody] at hres
  simp only [hpr, ok_bind, hrows, jsMapM] at hres
  obtain ⟨y, hy1, hy2⟩ := jsArrayMap_get mapProvinciaRow rows recs i _ hres hrow
  have hmap : mapProvinciaRow (.obj (("IdProvincia", .arr (idv :: idT)) ::
      ("Descripcion", .arr (.str desc :: dT)) :: extra)) =
      .ok ⟨idv, .str (jsStrTrim desc)⟩ := rfl
  rw [hmap] at hy1
  cases hy1
  exact hy2

/-- Witness for C5 at a one-row document with `Descripcion` value
`"  Santa Fe "` and `IdProvincia` value `" 5 "`. -/
theorem c5_provincias_trim_witness :
    ([ProvinciaRecord.mk (JsVal.str " 5 ") (JsVal.str "Santa Fe")].get? 0) =
      some ⟨JsVal.str " 5 ", JsVal.str (jsStrTrim "  Santa Fe ")⟩ :=
  c5_provincias_trim
    (parseConst (diffgramDoc [JsVal.obj
      [("IdProvincia", JsVal.arr [JsVal.str " 5 "]),
        ("Descripcion", JsVal.arr [JsVal.str "  Santa Fe "])]]))
    ⟨true, ""⟩
    (diffgramDoc [JsVal.obj
      [("IdProvincia", JsVal.arr [JsVal.str " 5 "]),
        ("Descripcion", JsVal.arr [JsVal.str "  Santa Fe "])]])
    [JsVal.obj [("IdProvincia", JsVal.arr [JsVal.str " 5 "]),
      ("Descripcion", JsVal.arr [JsVal.str "  Santa Fe "])]]
    [⟨JsVal.str " 5 ", JsVal.str "Santa Fe"⟩] 0 (JsVal.str " 5 ") []
    "  Santa Fe " [] [] rfl rfl rfl rfl rfl

/-- C7: a successful HTTP response whose body the XML parser rejects makes
every one of the five operations reject (with the re-wrapped parse error)
rather than resolve. -/
theorem c7_parse_error_rejects (parse : String → Except JsError JsVal)
    (r : Response) (e : JsError) (hok : r.ok = true)
    (hp : parse r.body = .error e) :
    listEnvios parse r = .error ⟨"Error", e.toString⟩ ∧
    tarifarEnvioCorporativo parse r = .error ⟨"Error", e.toString⟩ ∧
    getProvincias parse r = .error ⟨"Error", e.toString⟩ ∧
    getLocalidadesByProvincia parse r = .error ⟨"Error", e.toString⟩ ∧
    trackingPieza parse r = .error ⟨"Error", e.toString⟩ := by
  have hpr : parseResponse parse r = .error e := by
    simp [parseResponse, hok, hp]
  refine ⟨?_, ?_, ?_, ?_, ?_⟩
  · simp only [listEnvios, listEnviosBody, hpr, error_bind, wrapCatch]
  · simp only [tarifarEnvioCorporativo, tarifarEnvioCorporativoBody, hpr,
      error_bind, wrapCatch]
  · simp only [getProvincias, getProvinciasBody, hpr, error_bind, wrapCatch]
  · simp only [getLocalidadesByProvincia, getLocalidadesByProvinciaBody, hpr,
      error_bind, wrapCatch]
  · simp only [trackingPieza, trackingPiezaBody, hpr, error_bind, wrapCatch]

/-- Witness for C7 at a parser that rejects every body. -/
theorem c7_parse_error_rejects_witness :
    listEnvios (parseFail ⟨"Error", "Unexpected close tag"⟩) ⟨true, "<a></b>"⟩ =
      .error ⟨"Error", JsError.toString ⟨"Error", "Unexpected close tag"⟩⟩ :=
  (c7_parse_error_rejects (parseFail ⟨"Error", "Unexpected close tag"⟩)
    ⟨true, "<a></b>"⟩ ⟨"Error", "Unexpected close tag"⟩ rfl rfl).1

/-- C8: `getLocalidadesByProvincia` navigates `Localidades.Provincia`
(not the Field Extractor path) and returns a plain array of name values —
one per `Provincia` element, each the first value of that element's
`Nombre` field — never an array of records. -/
theorem c8_localidades_names (parse : String → Except JsError JsVal)
    (r : Response) (json l : JsVal) (provs out : List JsVal) (i : Nat)
    (n : String) (nT : List JsVal) (extra : List (String × JsVal))
    (hok : r.ok = true) (hp : parse r.body = .ok json)
    (hl : jsAccess json "Localidades" = some l)
    (hprov : jsAccess l "Provincia" = some (.arr provs))
    (hres : getLocalidadesByProvincia parse r = .ok out) :
    out.length = provs.length ∧
    (provs.get? i = some (.obj (("Nombre", .arr (.str n :: nT)) :: extra)) →
      out.get? i = some (.str n)) := by
  have hpr : parseResponse parse r = .ok json := by
    simp [parseResponse, hok, hp]
  have hj1 : jsProp json "Localidades" = .ok l := by
    cases json with
    | obj fs =>
      simp only [jsAccess] at hl
      simp [jsProp, hl]
    | undefined => simp [jsAccess] at hl
    | str s => simp [jsAccess] at hl
    | arr xs => simp [jsAccess] at hl
  have hj2 : jsProp l "Provincia" = .ok (.arr provs) := by
    cases l with
    | obj fs =>
      simp only [jsAccess] at hprov
      simp [jsProp, hprov]
    | undefined => simp [jsAccess] at hprov
    | str s => simp [jsAccess] at hprov
    | arr xs => simp [jsAccess] at hprov
  rw [getLocalidadesByProvincia, wrapCatch_ok_iff] at hres
  rw [getLocalidadesByProvinciaBody] at hres
  simp only [hpr, ok_bind, hj1, hj2, jsMapM] at hres
  constructor
  · exact jsArrayMap_length _ provs out hres
  · intro hrow
    obtain ⟨y, hy1, hy2⟩ := jsArrayMap_get _ provs out i _ hres hrow
    have hmap : jsField0
        (.obj (("Nombre", .arr (.str n :: nT)) :: extra)) "Nombre" =
        .ok (.str n) := rfl
    rw [hmap] at hy1
    cases hy1
    exact hy2

/-- Witness for C8 at a two-element `Localidades.Provincia` document. -/
theorem c8_localidades_names_witness :
    ([JsVal.str "Rosario", JsVal.str "Funes"].length =
      [JsVal.obj [("Nombre", JsVal.arr [JsVal.str "Rosario"])],
        JsVal.obj [("Nombre", JsVal.arr [JsVal.str "Funes"])]].length) ∧
    ([JsVal.obj [("Nombre", JsVal.arr [JsVal.str "Rosario"])],
        JsVal.obj [("Nombre", JsVal.arr [JsVal.str "Funes"])]].get? 1 =
      some (JsVal.obj (("Nombre", JsVal.arr (JsVal.str "Funes" :: [])) :: [])) →
      [JsVal.str "Rosario", JsVal.str "Funes"].get? 1 =
        some (JsVal.str "Funes")) :=
  c8_localidades_names
    (parseConst (localidadesDoc [JsVal.obj [("Nombre", JsVal.arr [JsVal.str "Rosario"])],
      JsVal.obj [("Nombre", JsVal.arr [JsVal.str "Funes"])]]))
    ⟨true, ""⟩
    (localidadesDoc [JsVal.obj [("Nombre", JsVal.arr [JsVal.str "Rosario"])],
      JsVal.obj [("Nombre", JsVal.arr [JsVal.str "Funes"])]])
    (JsVal.obj [("Provincia", JsVal.arr
      [JsVal.obj [("Nombre", JsVal.arr [JsVal.str "Rosario"])],
        JsVal.obj [("Nombre", JsVal.arr [JsVal.str "Funes"])]])])
    [JsVal.obj [("Nombre", JsVal.arr [JsVal.str "Rosario"])],
      JsVal.obj [("Nombre", JsVal.arr [JsVal.str "Funes"])]]
    [JsVal.str "Rosario", JsVal.str "Funes"] 1 "Funes" [] []
    rfl rfl rfl rfl rfl

/-- C9: whatever fails inside an operation (failure status, parse error,
missing row field), the caller receives a freshly built generic `Error`
whose message is the string conversion of the original error; whenever the
original error has a nonempty name, that conversion differs from the
original message, so the original message is not preserved verbatim. -/
theorem c9_error_rewrap (parse : String → Except JsError JsVal)
    (r : Response) (e : JsError) :
    (listEnviosBody parse r = .error e →
      listEnvios parse r = .error ⟨"Error", e.toString⟩) ∧
    (tarifarEnvioCorporativoBody parse r = .error e →
      tarifarEnvioCorporativo parse r = .error ⟨"Error", e.toString⟩) ∧
    (getProvinciasBody parse r = .error e →
      getProvincias parse r = .error ⟨"Error", e.toString⟩) ∧
    (getLocalidadesByProvinciaBody parse r = .error e →
      getLocalidadesByProvincia parse r = .error ⟨"Error", e.toString⟩) ∧
    (trackingPiezaBody parse r = .error e →
      trackingPieza parse r = .error ⟨"Error", e.toString⟩) ∧
    (e.name ≠ "" → e.toString ≠ e.message) := by
  refine ⟨?_, ?_, ?_, ?_, ?_, ?_⟩
  · intro hb; rw [listEnvios, hb]; rfl
  · intro hb; rw [tarifarEnvioCorporativo, hb]; rfl
  · intro hb; rw [getProvincias, hb]; rfl
  · intro hb; rw [getLocalidadesByProvincia, hb]; rfl
  · intro hb; rw [trackingPieza, hb]; rfl
  · intro hn
    unfold JsError.toString
    rw [if_neg hn]
    by_cases hm : e.message = ""
    · rw [if_pos hm, hm]
      exact hn
    · rw [if_neg hm]
      intro hEq
      have hlen : (e.name ++ ": " ++ e.message).length = e.message.length :=
        congrArg String.length hEq
      rw [String.length_append, String.length_append] at hlen
      have h2 : (": ").length = 2 := rfl
      rw [h2] at hlen
      have hpos : 0 < e.name.length + 2 := by omega
      omega

/-- Witness for C9: a failure-status body `boom` is delivered as a fresh
error with message `Error: boom`. -/
theorem c9_error_rewrap_witness :
    listEnvios (parseConst (JsVal.obj [])) ⟨false, "boom"⟩ =
      .error ⟨"Error", JsError.toString ⟨"Error", "boom"⟩⟩ ∧
    JsError.toString ⟨"Error", "boom"⟩ ≠ ("boom" : String) := by
  obtain ⟨h1, _, _, _, _, h6⟩ :=
    c9_error_rewrap (parseConst (JsVal.obj [])) ⟨false, "boom"⟩ ⟨"Error", "boom"⟩
  exact ⟨h1 rfl, h6 (by decide)⟩

/-- C10: when the successfully parsed document lacks the `Localidades`
element, or its `Provincia` child, `getLocalidadesByProvincia` rejects with
an error — it does not fall back to an empty array the way the four
diffgram operations do on a missing path. -/
theorem c10_localidades_missing_rejects (parse : String → Except JsError JsVal)
    (r : Response) (json : JsVal) (hok : r.ok = true)
    (hp : parse r.body = .ok json)
    (hmiss : jsAccess json "Localidades" = none ∨
      ∃ l, jsAccess json "Localidades" = some l ∧ jsAccess l "Provincia" = none) :
    (∃ e, getLocalidadesByProvincia parse r = .error e) ∧
    getLocalidadesByProvincia parse r ≠ .ok [] := by
  have hpr : parseResponse parse r = .ok json := by
    simp [parseResponse, hok, hp]
  have key : ∃ e, getLocalidadesByProvinciaBody parse r = .error e := by
    rw [getLocalidadesByProvinciaBody]
    rcases hmiss with hA | ⟨l, hl, hlp⟩
    · cases json with
      | undefined =>
        exact ⟨typeError "Localidades", by simp [hpr, ok_bind, jsProp, error_bind]⟩
      | obj fs =>
        simp only [jsAccess] at hA
        exact ⟨typeError "Provincia",
          by simp [hpr, ok_bind, jsProp, hA, error_bind]⟩
      | str s =>
        exact ⟨typeError "Provincia", by simp [hpr, ok_bind, jsProp, error_bind]⟩
      | arr xs =>
        exact ⟨typeError "Provincia", by simp [hpr, ok_bind, jsProp, error_bind]⟩
    · have hj1 : jsProp json "Localidades" = .ok l := by
        cases json with
        | obj fs =>
          simp only [jsAccess] at hl
          simp [jsProp, hl]
        | undefined => simp [jsAccess] at hl
        | str s => simp [jsAccess] at hl
        | arr xs => simp [jsAccess] at hl
      cases l with
      | undefined =>
        refine ⟨typeError "Provincia", ?_⟩
        simp only [hpr, ok_bind, hj1]
        simp [jsProp, error_bind]
      | obj gs =>
        simp only [jsAccess] at hlp
        refine ⟨typeError "map", ?_⟩
        simp only [hpr, ok_bind, hj1]
        simp [jsProp, hlp, jsMapM, error_bind, ok_bind]
      | str s =>
        refine ⟨typeError "map", ?_⟩
        simp only [hpr, ok_bind, hj1]
        simp [jsProp, jsMapM, error_bind, ok_bind]
      | arr xs =>
        refine ⟨typeError "map", ?_⟩
        simp only [hpr, ok_bind, hj1]
        simp [jsProp, jsMapM, error_bind, ok_bind]
  obtain ⟨e, he⟩ := key
  constructor
  · refine ⟨⟨"Error", e.toString⟩, ?_⟩
    rw [getLocalidadesByProvincia, he]
    rfl
  · intro hcontra
    rw [getLocalidadesByProvincia, wrapCatch_ok_iff, he] at hcontra
    cases hcontra

/-- Witness for C10 at the concrete document `{}` (no `Localidades`). -/
theorem c10_localidades_missing_rejects_witness :
    (∃ e, getLocalidadesByProvincia (parseConst (JsVal.obj [])) ⟨true, ""⟩ =
      .error e) ∧
    getLocalidadesByProvincia (parseConst (JsVal.obj [])) ⟨true, ""⟩ ≠ .ok [] :=
  c10_localidades_missing_rejects (parseConst (JsVal.obj [])) ⟨true, ""⟩
    (JsVal.obj []) rfl rfl (Or.inl rfl)

end OCA
